import Mathlib

/-!
Shallow embedding of the stream session reconciler of `ip_cam_viewer.py`
(willch3n/utils) and proofs about its behaviour.

The Python source drives three external mechanisms:
  * GNU screen sessions (one per stream index, named `cam<idx>`),
  * the `tvservice` HDMI utility (current display resolution),
  * the `vcgencmd dispmanx_list` query (active compositor layers).
The embedding turns each external observation into an explicit input
(`Env` below) and each external mutation into an explicit `Cmd` value
recorded in a `RunOut` trace, so that the four operations
(`start_streams`, `stop_streams`, `restart_streams`, `repair_streams`)
become pure functions from the configured stream list and the observed
environment to the trace of commands printed and executed.
-/

namespace IpCamViewer

/-- One configured stream, as parsed from `.ip_cam_viewer_cfg.json`:
a `name`, a `uri`, and an optional transport protocol string. -/
structure CamStream where
  name : String
  uri : String
  transport : Option String
  deriving Repr, DecidableEq

/-- The parsed configuration file: the ordered `streams` list.  A stream is
identified by its position in this list. -/
structure Cfg where
  streams : List CamStream
  deriving Repr, DecidableEq

/-- Constant `DEFAULT_TRANSPORT_PROTO = "tcp"` from the source. -/
def defaultTransportProto : String := "tcp"

/-- Transport selection in `start_streams` (lines 184-187): the per-stream
value when specified, else the default. -/
def transportOf (s : CamStream) : String := s.transport.getD defaultTransportProto

/-- One line of `vcgencmd dispmanx_list` output, classified exactly by the
two regular-expression tests in `repair_streams` (lines 231-236):
`unknownFormat` for a line containing `format:UNKNOWN` (skipped first),
`activeLayer x y` for a remaining line matching
`display:\d+ format:\S+ .*dst:(\d+,\d+),\d+,\d+ ` with captured top-left
corner `(x, y)`, and `noMatch` for a line matching neither regex. -/
inductive ProbeLine where
  | unknownFormat : ProbeLine
  | activeLayer (x y : Nat) : ProbeLine
  | noMatch : ProbeLine
  deriving Repr, DecidableEq

/-- The loop over `vcgencmd` output lines in `repair_streams` (lines
231-236): a `format:UNKNOWN` line is skipped with `continue`, a matching
active-layer line contributes its captured corner coordinates, and any
other line is silently skipped because `re.search` returns no match.
The source records the corner as the string `"x,y"`; since the decimal
representation of a natural number contains no comma, equality of those
strings coincides with equality of the coordinate pairs, so the model
collects pairs. -/
def parseDispmanxLines (lines : List ProbeLine) : List (Nat × Nat) :=
  match lines with
  | [] => []
  | ProbeLine.unknownFormat :: rest => parseDispmanxLines rest
  | ProbeLine.activeLayer x y :: rest => (x, y) :: parseDispmanxLines rest
  | ProbeLine.noMatch :: rest => parseDispmanxLines rest

/-- The external world as observed by one invocation: per-index screen
session existence (`screen -list | grep`), per-index exit statuses of the
launch (`screen -dmS ...`) and terminate (`screen -S ... -X quit`)
commands, the `tvservice --status` resolution (`none` when no mode line
matches), the classified `vcgencmd dispmanx_list` output, and whether the
`grep` executable is present (checked by `check_screen_session_exists`). -/
structure Env where
  sessionExists : Nat → Bool
  createExit : Nat → Nat
  termExit : Nat → Nat
  resolution : Option (Nat × Nat)
  probeLines : List ProbeLine
  grepAvailable : Bool

/-- An external mutating command issued by the reconciler: a `screen -dmS
cam<idx> ... omxplayer ...` launch carrying the bounding box, transport
and URI interpolated into it, or a `screen -S cam<idx> -X quit`. -/
inductive Cmd where
  | create (idx : Nat) (box : List Nat) (transport : String) (uri : String) : Cmd
  | terminate (idx : Nat) : Cmd
  deriving Repr, DecidableEq

/-- The stream index a command addresses. -/
def Cmd.idx : Cmd → Nat
  | Cmd.create i _ _ _ => i
  | Cmd.terminate _i => _i

/-- Whether a command is a session launch. -/
def Cmd.isCreate : Cmd → Bool
  | Cmd.create _ _ _ _ => true
  | Cmd.terminate _ => false

/-- The observable outcome of one operation: the mutating commands printed
(the source prints every assembled command before deciding whether to run
it), the mutating commands actually executed via `os.system`, the other
log lines of interest, and the pending exception if one was raised. -/
structure RunOut where
  printed : List Cmd
  executed : List Cmd
  log : List String
  err : Option String
  deriving Repr, DecidableEq

/-- An empty trace with no error. -/
def RunOut.empty : RunOut := { printed := [], executed := [], log := [], err := none }

/-- A trace that raised an exception before printing or executing
anything. -/
def RunOut.fail (e : String) : RunOut := { printed := [], executed := [], log := [], err := some e }

/-- Message raised by `check_screen_session_exists` when `grep` is
missing. -/
def grepMissingMsg : String := "/bin/grep executable not found."

/-- Message raised by `win_pos` when the display resolution cannot be
determined (no mode line matched, or a parsed dimension was zero, which
Python treats as falsy). -/
def resolutionFailMsg : String :=
  "Failed to query tvservice HDMI display utility to obtain resolution of current display"

/-- Message raised by `start_streams` when the launch command for index
`idx` exits with nonzero `status`. -/
def launchFailMsg (idx status : Nat) : String :=
  "Start command for stream " ++ toString idx ++ " failed with error code " ++ toString status ++ "."

/-- Message raised by `stop_streams` when the terminate command for index
`idx` exits with nonzero `status`. -/
def termFailMsg (idx status : Nat) : String :=
  "Stop command for stream " ++ toString idx ++ " failed with error code " ++ toString status ++ "."

/-- Message raised by `calc_grid_dims` for an unsupported stream count. -/
def cardMsg (n : Nat) : String :=
  "Maximum number of streams supported is 6, but " ++ toString n ++ " streams specified."

/-- Skip line printed by `start_streams` when the session already exists. -/
def skipMsg (idx : Nat) : String :=
  "Screen session cam" ++ toString idx ++ " already exists; skipping."

/-- Skip line printed by `stop_streams` when the session is already
stopped. -/
def alreadyStoppedMsg (idx : Nat) : String :=
  "Screen session cam" ++ toString idx ++ " already stopped; skipping."

/-- Summary line printed by `repair_streams` after restarting. -/
def repairedMsg (n : Nat) : String :=
  "Repaired " ++ toString n ++ " stream(s)."

/-- Summary line printed by `repair_streams` when nothing was missing. -/
def allIntactMsg : String := "All streams intact; no action required."

/-- `calc_grid_dims` (lines 332-345), as a function of the stream count:
1 stream gives a 1 x 1 grid, 2 to 4 streams (Python `range(2, 5)`) give
2 x 2, 5 or 6 streams (`range(5, 7)`) give 3 x 2, and anything else
raises the unsupported-cardinality exception. -/
def calc_grid_dims (n : Nat) : Except String (Nat × Nat) :=
  if n = 1 then Except.ok (1, 1)
  else if 2 ≤ n ∧ n < 5 then Except.ok (2, 2)
  else if 5 ≤ n ∧ n < 7 then Except.ok (3, 2)
  else Except.error (cardMsg n)

/-- The pure tail of `win_pos` (lines 368-383), given the display
resolution `(w, h)` obtained from `tvservice`: tile sizes are the integer
divisions `w / gx` and `h / gy` (Python `int(w / gx)`, which for these
magnitudes is floor division), and the result is the 4-element list
`[top_left_x, top_left_y, bot_right_x, bot_right_y]`.  The source never
calls this with a zero grid dimension (`calc_grid_dims` returns only
positive dimensions); Nat division by zero yields 0 here. -/
def winPosCore (w h gx gy x y : Nat) : List Nat :=
  let x_sz := w / gx
  let y_sz := h / gy
  let top_left_x := x * x_sz
  let top_left_y := y * y_sz
  let bot_right_x := top_left_x + x_sz
  let bot_right_y := top_left_y + y_sz
  [top_left_x, top_left_y, bot_right_x, bot_right_y]

/-- `win_pos` (lines 349-383).  The source runs `tvservice --status` on
every call and scans its output for a mode line; `res` is the parsed
result of that query (`none` when no line matched).  It raises when the
query yielded nothing or a parsed dimension is zero (the Python check
`if (not disp_res_x) or (not disp_res_y)` treats 0 as falsy); otherwise
it returns the bounding box computed by `winPosCore`. -/
def win_pos (res : Option (Nat × Nat)) (gx gy x y : Nat) : Except String (List Nat) :=
  match res with
  | none => Except.error resolutionFailMsg
  | some (w, h) =>
    if w = 0 ∨ h = 0 then Except.error resolutionFailMsg
    else Except.ok (winPosCore w h gx gy x y)

/-- The expected top-left anchor of stream index `idx` on a `gx` x `gy`
grid over a `w` x `h` display: the first two components of its
`win_pos` bounding box, with cell `(idx % gx, idx / gx)`. -/
def expectedAnchor (w h gx gy idx : Nat) : Nat × Nat :=
  ((idx % gx) * (w / gx), (idx / gx) * (h / gy))

/-- `check_screen_session_exists` (lines 316-329): raises when `grep` is
missing, else reports whether the `screen -list | grep` pipeline found a
session named `cam<idx>`. -/
def checkScreenSessionExists (env : Env) (idx : Nat) : Except String Bool :=
  if env.grepAvailable then Except.ok (env.sessionExists idx) else Except.error grepMissingMsg

/-- Membership of a point in a half-open bounding box `[left, right) x
[top, bottom)`, the box being the 4-element list produced by
`winPosCore`. -/
def ptInBox (box : List Nat) (px py : Nat) : Prop :=
  box.getD 0 0 ≤ px ∧ px < box.getD 2 0 ∧ box.getD 1 0 ≤ py ∧ py < box.getD 3 0

/-- The loop body of `start_streams` (lines 175-216), processing the
streams from index `idx` on.  For each stream: if its screen session
already exists it is skipped with a log line; otherwise the bounding box
is computed via `win_pos` (which re-queries the display resolution), the
launch command is assembled and printed, and on a live run it is executed
and a nonzero exit status raises, aborting the remaining streams. -/
def startGo (env : Env) (live : Bool) (gx gy : Nat) : Nat → List CamStream → RunOut
  | _, [] => RunOut.empty
  | idx, s :: rest =>
    match checkScreenSessionExists env idx with
    | Except.error e => RunOut.fail e
    | Except.ok b =>
      if b then
        let out := startGo env live gx gy (idx + 1) rest
        { out with log := skipMsg idx :: out.log }
      else
        match win_pos env.resolution gx gy (idx % gx) (idx / gx) with
        | Except.error e => RunOut.fail e
        | Except.ok box =>
          let c := Cmd.create idx box (transportOf s) s.uri
          if live then
            if env.createExit idx ≠ 0 then
              { printed := [c], executed := [c], log := [],
                err := some (launchFailMsg idx (env.createExit idx)) }
            else
              let out := startGo env live gx gy (idx + 1) rest
              { printed := c :: out.printed, executed := c :: out.executed,
                log := out.log, err := out.err }
          else
            let out := startGo env live gx gy (idx + 1) rest
            { printed := c :: out.printed, executed := out.executed,
              log := out.log, err := out.err }

/-- `start_streams` (lines 169-218): compute the grid dimensions from the
stream count (raising on an unsupported count), then run the per-stream
loop from index 0. -/
def startStreams (env : Env) (cfg : Cfg) (live : Bool) : RunOut :=
  match calc_grid_dims cfg.streams.length with
  | Except.error e => RunOut.fail e
  | Except.ok (gx, gy) => startGo env live gx gy 0 cfg.streams

/-- The loop body of `stop_streams` (lines 291-311): a stream whose
session does not exist is skipped with a log line; otherwise the
terminate command is printed, and on a live run it is executed and a
nonzero exit status raises, aborting the remaining streams. -/
def stopGo (env : Env) (live : Bool) : Nat → List CamStream → RunOut
  | _, [] => RunOut.empty
  | idx, _ :: rest =>
    match checkScreenSessionExists env idx with
    | Except.error e => RunOut.fail e
    | Except.ok b =>
      if b then
        let c := Cmd.terminate idx
        if live then
          if env.termExit idx ≠ 0 then
            { printed := [c], executed := [c], log := [],
              err := some (termFailMsg idx (env.termExit idx)) }
          else
            let out := stopGo env live (idx + 1) rest
            { printed := c :: out.printed, executed := c :: out.executed,
              log := out.log, err := out.err }
        else
          let out := stopGo env live (idx + 1) rest
          { printed := c :: out.printed, executed := out.executed,
            log := out.log, err := out.err }
      else
        let out := stopGo env live (idx + 1) rest
        { out with log := alreadyStoppedMsg idx :: out.log }

/-- `stop_streams` (lines 288-313): run the per-stream loop from
index 0 (no grid computation is involved). -/
def stopStreams (env : Env) (cfg : Cfg) (live : Bool) : RunOut :=
  stopGo env live 0 cfg.streams

/-- `restart_streams` (lines 279-285): stop all streams, wait one second
(the fixed settle delay, not modelled as time), then start them.  `env`
is the world observed by the stop phase and `envS` the world observed by
the start phase, which runs after the teardown has taken effect.  An
exception during the stop phase propagates and the start phase never
runs. -/
def restartStreams (env envS : Env) (cfg : Cfg) (live : Bool) : RunOut :=
  let o := stopStreams env cfg live
  match o.err with
  | some _ => o
  | none =>
    let s := startStreams envS cfg live
    { printed := o.printed ++ s.printed, executed := o.executed ++ s.executed,
      log := o.log ++ s.log, err := s.err }

/-- The scan loop of `repair_streams` (lines 244-266), processing the
streams from index `idx` on, given the parsed DispmanX corner list
`coords`.  For each stream the expected top-left corner is the first two
components of its `win_pos` box; when it is absent from `coords` the
terminate command is printed and, on a live run, executed.  The exit
status of that `os.system` call is ignored (line 266), and no session
existence check is made. -/
def repairGo (res : Option (Nat × Nat)) (live : Bool) (coords : List (Nat × Nat))
    (gx gy : Nat) : Nat → List CamStream → RunOut
  | _, [] => RunOut.empty
  | idx, _ :: rest =>
    match win_pos res gx gy (idx % gx) (idx / gx) with
    | Except.error e => RunOut.fail e
    | Except.ok box =>
      if (box.getD 0 0, box.getD 1 0) ∈ coords then
        repairGo res live coords gx gy (idx + 1) rest
      else
        let c := Cmd.terminate idx
        let out := repairGo res live coords gx gy (idx + 1) rest
        if live then
          { printed := c :: out.printed, executed := c :: out.executed,
            log := out.log, err := out.err }
        else
          { printed := c :: out.printed, executed := out.executed,
            log := out.log, err := out.err }

/-- `repair_streams` (lines 221-276): parse the `vcgencmd dispmanx_list`
output into corner coordinates, compute the grid dimensions (raising on
an unsupported count), scan all streams terminating those whose expected
corner is absent (the number of printed terminate commands is exactly the
`missing_stream_cnt` counter of the source), then, if at least one was
missing, re-run `start_streams` and print the repaired count; otherwise
print that no action is required.  `envS` is the world observed by the
re-run of start. -/
def repairStreams (env envS : Env) (cfg : Cfg) (live : Bool) : RunOut :=
  let coords := parseDispmanxLines env.probeLines
  match calc_grid_dims cfg.streams.length with
  | Except.error e => RunOut.fail e
  | Except.ok (gx, gy) =>
    let out := repairGo env.resolution live coords gx gy 0 cfg.streams
    match out.err with
    | some _ => out
    | none =>
      if 0 < out.printed.length then
        let s := startStreams envS cfg live
        match s.err with
        | some e =>
          { printed := out.printed ++ s.printed, executed := out.executed ++ s.executed,
            log := out.log ++ s.log, err := some e }
        | none =>
          { printed := out.printed ++ s.printed, executed := out.executed ++ s.executed,
            log := out.log ++ s.log ++ [repairedMsg out.printed.length], err := none }
      else
        { out with log := out.log ++ [allIntactMsg] }

/-- The stream indices in `[i0, i0 + len)` whose expected anchor is
absent from the observed corner list `coords`: exactly the indices
terminated and counted as missing by the scan loop of
`repair_streams`. -/
def missingIdxs (w h gx gy : Nat) (coords : List (Nat × Nat)) (i0 len : Nat) : List Nat :=
  (List.range' i0 len).filter (fun i => decide (expectedAnchor w h gx gy i ∉ coords))

/-- C2: for every stream count in [1,6], `calc_grid_dims` returns exactly
the fixed table (1 gives 1 x 1, 2..4 give 2 x 2, 5..6 give 3 x 2), and
for 0 or more than 6 it fails with the unsupported-cardinality error. -/
theorem grid_table_exact :
    calc_grid_dims 1 = Except.ok (1, 1)
    ∧ (∀ n, 2 ≤ n → n ≤ 4 → calc_grid_dims n = Except.ok (2, 2))
    ∧ (∀ n, 5 ≤ n → n ≤ 6 → calc_grid_dims n = Except.ok (3, 2))
    ∧ calc_grid_dims 0 = Except.error (cardMsg 0)
    ∧ (∀ n, 7 ≤ n → calc_grid_dims n = Except.error (cardMsg n)) := by
  refine ⟨rfl, ?_, ?_, rfl, ?_⟩
  · intro n h1 h2
    simp only [calc_grid_dims]
    rw [if_neg (by omega), if_pos (by omega : 2 ≤ n ∧ n < 5)]
  · intro n h1 h2
    simp only [calc_grid_dims]
    rw [if_neg (by omega), if_neg (by omega : ¬(2 ≤ n ∧ n < 5)),
      if_pos (by omega : 5 ≤ n ∧ n < 7)]
  · intro n h1
    simp only [calc_grid_dims]
    rw [if_neg (by omega), if_neg (by omega : ¬(2 ≤ n ∧ n < 5)),
      if_neg (by omega : ¬(5 ≤ n ∧ n < 7))]

/-- Witness for C2: the table evaluated at stream counts 4 and 9. -/
theorem grid_table_exact_witness :
    ((2 : Nat) ≤ 4 ∧ (4 : Nat) ≤ 4 ∧ (7 : Nat) ≤ 9)
    ∧ calc_grid_dims 4 = Except.ok (2, 2)
    ∧ calc_grid_dims 9 = Except.error (cardMsg 9) :=
  ⟨by decide, grid_table_exact.2.1 4 (by decide) (by decide),
    grid_table_exact.2.2.2.2 9 (by decide)⟩

/-- C3: for every grid and display resolution the bounding box is exactly
`left = col * floor(w / cols)`, `top = row * floor(h / rows)`,
`right = left + floor(w / cols)`, `bottom = top + floor(h / rows)`; and in
the 3-stream 1920 x 1080 scenario (grid 2 x 2, index `i` in cell
`(i % cols, i / cols)`) the three boxes are `(0,0,960,540)`,
`(960,0,1920,540)` and `(0,540,960,1080)`. -/
theorem box_formula_and_scenario :
    (∀ w h gx gy c r, 1 ≤ gx → 1 ≤ gy →
      winPosCore w h gx gy c r =
        [c * (w / gx), r * (h / gy), c * (w / gx) + w / gx, r * (h / gy) + h / gy])
    ∧ calc_grid_dims 3 = Except.ok (2, 2)
    ∧ win_pos (some (1920, 1080)) 2 2 (0 % 2) (0 / 2) = Except.ok [0, 0, 960, 540]
    ∧ win_pos (some (1920, 1080)) 2 2 (1 % 2) (1 / 2) = Except.ok [960, 0, 1920, 540]
    ∧ win_pos (some (1920, 1080)) 2 2 (2 % 2) (2 / 2) = Except.ok [0, 540, 960, 1080] :=
  ⟨fun _ _ _ _ _ _ _ _ => rfl, rfl, rfl, rfl, rfl⟩

/-- Witness for C3: the box formula evaluated at the 2 x 2 grid on a
1920 x 1080 display, cell (1, 0). -/
theorem box_formula_and_scenario_witness :
    ((1 : Nat) ≤ 2 ∧ (1 : Nat) ≤ 2)
    ∧ winPosCore 1920 1080 2 2 1 0 =
        [1 * (1920 / 2), 0 * (1080 / 2), 1 * (1920 / 2) + 1920 / 2, 0 * (1080 / 2) + 1080 / 2] :=
  ⟨by decide, box_formula_and_scenario.1 1920 1080 2 2 1 0 (by decide) (by decide)⟩

/-- Counterexample for C8: `win_pos` is not failure-free — it re-queries
the display on every call, and when the `tvservice` output contains no
usable mode line (`res = none`), or a parsed dimension is zero, it raises
the resolution error even though the cardinality check already passed. -/
theorem winpos_queries_display_counterexample :
    win_pos none 2 2 0 0 = Except.error resolutionFailMsg
    ∧ (win_pos none 2 2 0 0).isOk = false
    ∧ win_pos (some (0, 1080)) 2 2 0 0 = Except.error resolutionFailMsg :=
  ⟨rfl, rfl, rfl⟩

/-- C8 amended: the box computation is a deterministic pure function of
the queried resolution and the cell — whenever the display query yields a
positive resolution `(w, h)`, `win_pos` returns exactly
`winPosCore w h gx gy x y` — but `win_pos` itself performs the display
query on each call and fails with the resolution error when that query
yields nothing. -/
theorem winpos_pure_given_resolution (res : Option (Nat × Nat)) (w h gx gy x y : Nat)
    (hres : res = some (w, h)) (hw : 0 < w) (hh : 0 < h) :
    win_pos res gx gy x y = Except.ok (winPosCore w h gx gy x y)
    ∧ win_pos none gx gy x y = Except.error resolutionFailMsg := by
  subst hres
  refine ⟨?_, rfl⟩
  simp only [win_pos]
  rw [if_neg (by omega : ¬(w = 0 ∨ h = 0))]

/-- Witness for C8's amended theorem at resolution 1920 x 1080, cell
(1, 1) of a 2 x 2 grid. -/
theorem winpos_pure_given_resolution_witness :
    (some (1920, 1080) = some ((1920 : Nat), (1080 : Nat)) ∧ (0 : Nat) < 1920 ∧ (0 : Nat) < 1080)
    ∧ (win_pos (some (1920, 1080)) 2 2 1 1 = Except.ok (winPosCore 1920 1080 2 2 1 1)
      ∧ win_pos none 2 2 1 1 = Except.error resolutionFailMsg) :=
  ⟨⟨rfl, by decide, by decide⟩,
    winpos_pure_given_resolution (some (1920, 1080)) 1920 1080 2 2 1 1 rfl (by decide) (by decide)⟩

/-- Unfolding of box membership for a `winPosCore` box. -/
lemma ptInBox_winPosCore (w h gx gy c r px py : Nat) :
    ptInBox (winPosCore w h gx gy c r) px py ↔
      (c * (w / gx) ≤ px ∧ px < c * (w / gx) + w / gx ∧
       r * (h / gy) ≤ py ∧ py < r * (h / gy) + h / gy) := Iff.rfl

/-- Two distinct tiles of width `t` along one axis cannot share a
point. -/
lemma tile_disjoint {t a b p : Nat} (hab : a ≠ b) (h1 : a * t ≤ p) (h2 : p < a * t + t)
    (h3 : b * t ≤ p) (h4 : p < b * t + t) : False := by
  have ha : p / t = a := Nat.div_eq_of_lt_le h1 (by rw [Nat.succ_mul]; omega)
  have hb : p / t = b := Nat.div_eq_of_lt_le h3 (by rw [Nat.succ_mul]; omega)
  exact hab (ha ▸ hb)

/-- C4: for a valid grid, the `winPosCore` boxes of distinct cells are
pairwise disjoint, and together they cover the rectangle
`[0, cols * floor(w / cols)) x [0, rows * floor(h / rows))` — the whole
display up to the integer-truncation remainder on the right and bottom
edges. -/
theorem boxes_disjoint_and_cover (w h gx gy : Nat) (hgx : 1 ≤ gx) (hgy : 1 ≤ gy) :
    (∀ c r c2 r2 px py, c < gx → r < gy → c2 < gx → r2 < gy → (c, r) ≠ (c2, r2) →
      ptInBox (winPosCore w h gx gy c r) px py →
      ptInBox (winPosCore w h gx gy c2 r2) px py → False)
    ∧ (∀ px py, px < gx * (w / gx) → py < gy * (h / gy) →
      ∃ c r, c < gx ∧ r < gy ∧ ptInBox (winPosCore w h gx gy c r) px py) := by
  constructor
  · intro c r c2 r2 px py hc hr hc2 hr2 hne h1 h2
    rw [ptInBox_winPosCore] at h1 h2
    obtain ⟨a1, a2, a3, a4⟩ := h1
    obtain ⟨b1, b2, b3, b4⟩ := h2
    rcases eq_or_ne c c2 with hcc | hcc
    · subst hcc
      have hrr : r ≠ r2 := fun hh => hne (by rw [hh])
      exact tile_disjoint hrr a3 a4 b3 b4
    · exact tile_disjoint hcc a1 a2 b1 b2
  · intro px py hx hy
    have htw : 0 < w / gx := by
      rcases Nat.eq_zero_or_pos (w / gx) with h0 | h0
      · rw [h0, Nat.mul_zero] at hx; omega
      · exact h0
    have hth : 0 < h / gy := by
      rcases Nat.eq_zero_or_pos (h / gy) with h0 | h0
      · rw [h0, Nat.mul_zero] at hy; omega
      · exact h0
    refine ⟨px / (w / gx), py / (h / gy), ?_, ?_, ?_⟩
    · exact (Nat.div_lt_iff_lt_mul htw).mpr hx
    · exact (Nat.div_lt_iff_lt_mul hth).mpr hy
    · rw [ptInBox_winPosCore]
      refine ⟨Nat.div_mul_le_self px (w / gx), ?_, Nat.div_mul_le_self py (h / gy), ?_⟩
      · have hstep := (Nat.div_lt_iff_lt_mul htw).mp (Nat.lt_succ_self (px / (w / gx)))
        rw [Nat.succ_mul] at hstep; omega
      · have hstep := (Nat.div_lt_iff_lt_mul hth).mp (Nat.lt_succ_self (py / (h / gy)))
        rw [Nat.succ_mul] at hstep; omega

/-- Witness for C4: the coverage half evaluated on the 2 x 2 grid over a
1920 x 1080 display. -/
theorem boxes_disjoint_and_cover_witness :
    ((1 : Nat) ≤ 2)
    ∧ (∀ px py, px < 2 * (1920 / 2) → py < 2 * (1080 / 2) →
      ∃ c r, c < 2 ∧ r < 2 ∧ ptInBox (winPosCore 1920 1080 2 2 c r) px py) :=
  ⟨by decide, (boxes_disjoint_and_cover 1920 1080 2 2 (by decide) (by decide)).2⟩

/-- On a dry run the start loop executes no command. -/
lemma startGo_dry_executed (env : Env) (gx gy : Nat) (ss : List CamStream) :
    ∀ i0, (startGo env false gx gy i0 ss).executed = [] := by
  induction ss with
  | nil => intro i0; rfl
  | cons s rest ih =>
    intro i0
    simp only [startGo]
    cases hc : checkScreenSessionExists env i0 with
    | error e => rfl
    | ok b =>
      cases b with
      | true => simpa using ih (i0 + 1)
      | false =>
        cases hw : win_pos env.resolution gx gy (i0 % gx) (i0 / gx) with
        | error e => rfl
        | ok box => simpa using ih (i0 + 1)

/-- On a dry run the stop loop executes no command. -/
lemma stopGo_dry_executed (env : Env) (ss : List CamStream) :
    ∀ i0, (stopGo env false i0 ss).executed = [] := by
  induction ss with
  | nil => intro i0; rfl
  | cons s rest ih =>
    intro i0
    simp only [stopGo]
    cases hc : checkScreenSessionExists env i0 with
    | error e => rfl
    | ok b =>
      cases b with
      | true => simpa using ih (i0 + 1)
      | false => simpa using ih (i0 + 1)

/-- On a dry run the repair scan loop executes no command. -/
lemma repairGo_dry_executed (res : Option (Nat × Nat)) (coords : List (Nat × Nat))
    (gx gy : Nat) (ss : List CamStream) :
    ∀ i0, (repairGo res false coords gx gy i0 ss).executed = [] := by
  induction ss with
  | nil => intro i0; rfl
  | cons s rest ih =>
    intro i0
    simp only [repairGo]
    cases hw : win_pos res gx gy (i0 % gx) (i0 / gx) with
    | error e => rfl
    | ok box =>
      dsimp only
      split
      · exact ih (i0 + 1)
      · exact ih (i0 + 1)

/-- On a dry run `start_streams` executes no command. -/
lemma startStreams_dry_executed (env : Env) (cfg : Cfg) :
    (startStreams env cfg false).executed = [] := by
  unfold startStreams
  cases hg : calc_grid_dims cfg.streams.length with
  | error e => rfl
  | ok d => exact startGo_dry_executed env d.1 d.2 cfg.streams 0

/-- On a dry run `stop_streams` executes no command. -/
lemma stopStreams_dry_executed (env : Env) (cfg : Cfg) :
    (stopStreams env cfg false).executed = [] :=
  stopGo_dry_executed env cfg.streams 0

/-- When every session in scope already exists, the start loop prints
and executes nothing and logs one skip line per index, in order. -/
lemma startGo_all_exist (env : Env) (live : Bool) (gx gy : Nat)
    (hgrep : env.grepAvailable = true) (ss : List CamStream) :
    ∀ i0, (∀ i, i0 ≤ i → i < i0 + ss.length → env.sessionExists i = true) →
      startGo env live gx gy i0 ss =
        { printed := [], executed := [], log := (List.range' i0 ss.length).map skipMsg,
          err := none } := by
  induction ss with
  | nil => intro i0 _; rfl
  | cons s rest ih =>
    intro i0 hall
    have hc : checkScreenSessionExists env i0 = Except.ok true := by
      simp [checkScreenSessionExists, hgrep]
      exact hall i0 (Nat.le_refl i0) (by simp only [List.length_cons]; omega)
    simp only [startGo, hc]
    rw [ih (i0 + 1) (fun i h1 h2 => hall i (by omega) (by simp only [List.length_cons]; omega))]
    simp [List.length_cons, List.range'_succ]

/-- C5: `start` is idempotent with respect to session creation — on an
invocation where every stream index already has a session (as after a
completed first `start` with no intervening `stop`), the live run issues
zero create calls, prints no command, raises nothing, and logs a skip
line for every index. -/
theorem start_skips_all_when_sessions_exist (env : Env) (cfg : Cfg) (gx gy : Nat)
    (hgrid : calc_grid_dims cfg.streams.length = Except.ok (gx, gy))
    (hgrep : env.grepAvailable = true)
    (hsess : ∀ i, i < cfg.streams.length → env.sessionExists i = true) :
    startStreams env cfg true =
      { printed := [], executed := [], log := (List.range cfg.streams.length).map skipMsg,
        err := none } := by
  unfold startStreams
  rw [hgrid, List.range_eq_range']
  exact startGo_all_exist env true gx gy hgrep cfg.streams 0 (fun i h1 h2 => hsess i (by omega))

/-- An environment where every session exists and all commands
succeed. -/
def envAllExist : Env :=
  { sessionExists := fun _ => true, createExit := fun _ => 0, termExit := fun _ => 0,
    resolution := some (1920, 1080), probeLines := [], grepAvailable := true }

/-- A two-stream configuration. -/
def cfgTwo : Cfg :=
  { streams := [⟨"c0", "u0", none⟩, ⟨"c1", "u1", none⟩] }

/-- Witness for C5: the second invocation on a two-stream configuration
whose sessions both exist. -/
theorem start_skips_all_when_sessions_exist_witness :
    (calc_grid_dims cfgTwo.streams.length = Except.ok (2, 2)
      ∧ envAllExist.grepAvailable = true
      ∧ (∀ i, i < cfgTwo.streams.length → envAllExist.sessionExists i = true))
    ∧ startStreams envAllExist cfgTwo true =
      { printed := [], executed := [], log := (List.range cfgTwo.streams.length).map skipMsg,
        err := none } :=
  ⟨⟨rfl, rfl, fun _ _ => rfl⟩,
    start_skips_all_when_sessions_exist envAllExist cfgTwo 2 2 rfl rfl (fun _ _ => rfl)⟩

/-- `win_pos` succeeds on a positive resolution. -/
lemma winPos_pos (w h gx gy x y : Nat) (hw : 0 < w) (hh : 0 < h) :
    win_pos (some (w, h)) gx gy x y = Except.ok (winPosCore w h gx gy x y) := by
  simp only [win_pos]
  rw [if_neg (by omega : ¬(w = 0 ∨ h = 0))]

/-- The first two components of the `win_pos` box of index `idx` are its
expected anchor. -/
lemma winPosCore_anchor (w h gx gy idx : Nat) :
    ((winPosCore w h gx gy (idx % gx) (idx / gx)).getD 0 0,
      (winPosCore w h gx gy (idx % gx) (idx / gx)).getD 1 0) = expectedAnchor w h gx gy idx := rfl

/-- `missingIdxs` over an empty range. -/
lemma missingIdxs_zero (w h gx gy : Nat) (coords : List (Nat × Nat)) (i0 : Nat) :
    missingIdxs w h gx gy coords i0 0 = [] := rfl

/-- `missingIdxs` drops an index whose anchor is observed. -/
lemma missingIdxs_cons_mem {w h gx gy i0 len : Nat} {coords : List (Nat × Nat)}
    (hm : expectedAnchor w h gx gy i0 ∈ coords) :
    missingIdxs w h gx gy coords i0 (len + 1) = missingIdxs w h gx gy coords (i0 + 1) len := by
  unfold missingIdxs
  rw [List.range'_succ, List.filter_cons]
  simp [hm]

/-- `missingIdxs` keeps an index whose anchor is absent. -/
lemma missingIdxs_cons_not_mem {w h gx gy i0 len : Nat} {coords : List (Nat × Nat)}
    (hm : expectedAnchor w h gx gy i0 ∉ coords) :
    missingIdxs w h gx gy coords i0 (len + 1) = i0 :: missingIdxs w h gx gy coords (i0 + 1) len := by
  unfold missingIdxs
  rw [List.range'_succ, List.filter_cons]
  simp [hm]

/-- Membership in `missingIdxs`. -/
lemma mem_missingIdxs {w h gx gy i0 len i : Nat} {coords : List (Nat × Nat)} :
    i ∈ missingIdxs w h gx gy coords i0 len ↔
      (i0 ≤ i ∧ i < i0 + len ∧ expectedAnchor w h gx gy i ∉ coords) := by
  unfold missingIdxs
  simp [List.mem_filter, List.mem_range'_1, and_assoc]

/-- Closed form of the repair scan loop on a positive resolution: it
prints (and on a live run executes) exactly one terminate per index whose
expected anchor is absent from the observed corner list, in index order,
logs nothing and raises nothing. -/
lemma repairGo_eq (w h : Nat) (hw : 0 < w) (hh : 0 < h) (live : Bool)
    (coords : List (Nat × Nat)) (gx gy : Nat) (ss : List CamStream) :
    ∀ i0, repairGo (some (w, h)) live coords gx gy i0 ss =
      { printed := (missingIdxs w h gx gy coords i0 ss.length).map Cmd.terminate,
        executed :=
          if live then (missingIdxs w h gx gy coords i0 ss.length).map Cmd.terminate else [],
        log := [], err := none } := by
  induction ss with
  | nil => intro i0; cases live <;> rfl
  | cons s rest ih =>
    intro i0
    have hwp := winPos_pos w h gx gy (i0 % gx) (i0 / gx) hw hh
    simp only [repairGo, hwp]
    rw [show ((winPosCore w h gx gy (i0 % gx) (i0 / gx)).getD 0 0,
        (winPosCore w h gx gy (i0 % gx) (i0 / gx)).getD 1 0) = expectedAnchor w h gx gy i0
      from rfl]
    by_cases hm : expectedAnchor w h gx gy i0 ∈ coords
    · rw [if_pos hm, ih (i0 + 1)]
      simp [List.length_cons, missingIdxs_cons_mem hm]
    · rw [if_neg hm, ih (i0 + 1)]
      cases live <;> simp [List.length_cons, missingIdxs_cons_not_mem hm]

/-- Every command executed by the start loop is a session launch. -/
lemma startGo_executed_isCreate (env : Env) (live : Bool) (gx gy : Nat) (ss : List CamStream) :
    ∀ i0 c, c ∈ (startGo env live gx gy i0 ss).executed → c.isCreate = true := by
  induction ss with
  | nil => intro i0 c hc; simp [startGo, RunOut.empty] at hc
  | cons s rest ih =>
    intro i0 c hc
    simp only [startGo] at hc
    cases hch : checkScreenSessionExists env i0 with
    | error e => rw [hch] at hc; simp [RunOut.fail] at hc
    | ok b =>
      rw [hch] at hc
      cases b with
      | true => exact ih (i0 + 1) c (by simpa using hc)
      | false =>
        cases hwp : win_pos env.resolution gx gy (i0 % gx) (i0 / gx) with
        | error e => rw [hwp] at hc; simp [RunOut.fail] at hc
        | ok box =>
          rw [hwp] at hc
          cases live with
          | false => exact ih (i0 + 1) c (by simpa using hc)
          | true =>
            by_cases hex : env.createExit i0 ≠ 0
            · simp [hex] at hc
              rw [hc]; rfl
            · simp [hex] at hc
              rcases hc with hc | hc
              · rw [hc]; rfl
              · exact ih (i0 + 1) c hc

/-- Every command executed by `start_streams` is a session launch. -/
lemma startStreams_executed_isCreate (env : Env) (cfg : Cfg) (live : Bool) :
    ∀ c, c ∈ (startStreams env cfg live).executed → c.isCreate = true := by
  intro c hc
  unfold startStreams at hc
  cases hg : calc_grid_dims cfg.streams.length with
  | error e => rw [hg] at hc; simp [RunOut.fail] at hc
  | ok d =>
    rw [hg] at hc
    exact startGo_executed_isCreate env live d.1 d.2 cfg.streams 0 c hc

/-- C1: on a live run with a valid stream count and a known positive
resolution, `repair` issues a terminate for exactly the stream indices
whose expected top-left anchor is absent from the observed surface set
and none for the others; when every expected anchor is present it issues
zero terminate and zero create commands; and when at least one index is
missing its executed commands are exactly those terminates followed by a
re-run of `start`. -/
theorem repair_terminates_exactly_missing (env envS : Env) (cfg : Cfg) (w h gx gy : Nat)
    (hres : env.resolution = some (w, h)) (hw : 0 < w) (hh : 0 < h)
    (hgrid : calc_grid_dims cfg.streams.length = Except.ok (gx, gy)) :
    (∀ i, Cmd.terminate i ∈ (repairStreams env envS cfg true).executed ↔
      (i < cfg.streams.length
        ∧ expectedAnchor w h gx gy i ∉ parseDispmanxLines env.probeLines))
    ∧ ((∀ i, i < cfg.streams.length →
        expectedAnchor w h gx gy i ∈ parseDispmanxLines env.probeLines) →
      (repairStreams env envS cfg true).executed = []
        ∧ (repairStreams env envS cfg true).printed = [])
    ∧ ((∃ i, i < cfg.streams.length
          ∧ expectedAnchor w h gx gy i ∉ parseDispmanxLines env.probeLines) →
      (repairStreams env envS cfg true).executed =
        (missingIdxs w h gx gy (parseDispmanxLines env.probeLines) 0
            cfg.streams.length).map Cmd.terminate
          ++ (startStreams envS cfg true).executed) := by
  have hgo : repairGo env.resolution true (parseDispmanxLines env.probeLines) gx gy 0
      cfg.streams =
      { printed := (missingIdxs w h gx gy (parseDispmanxLines env.probeLines) 0
          cfg.streams.length).map Cmd.terminate,
        executed := (missingIdxs w h gx gy (parseDispmanxLines env.probeLines) 0
          cfg.streams.length).map Cmd.terminate,
        log := [], err := none } := by
    rw [hres]
    simpa using repairGo_eq w h hw hh true (parseDispmanxLines env.probeLines) gx gy
      cfg.streams 0
  by_cases hTnil : missingIdxs w h gx gy (parseDispmanxLines env.probeLines) 0
      cfg.streams.length = []
  · have hrepair : repairStreams env envS cfg true =
        { printed := [], executed := [], log := [allIntactMsg], err := none } := by
      unfold repairStreams
      rw [hgrid]
      dsimp only
      rw [hgo, hTnil]
      simp
    refine ⟨?_, fun _ => by rw [hrepair]; exact ⟨rfl, rfl⟩, ?_⟩
    · intro i
      rw [hrepair]
      constructor
      · intro hmem; simp at hmem
      · rintro ⟨h1, h2⟩
        have hmem : i ∈ missingIdxs w h gx gy (parseDispmanxLines env.probeLines) 0
            cfg.streams.length := mem_missingIdxs.mpr ⟨Nat.zero_le i, by omega, h2⟩
        rw [hTnil] at hmem
        simp at hmem
    · rintro ⟨i, hi, hnot⟩
      exfalso
      have hmem : i ∈ missingIdxs w h gx gy (parseDispmanxLines env.probeLines) 0
          cfg.streams.length := mem_missingIdxs.mpr ⟨Nat.zero_le i, by omega, hnot⟩
      rw [hTnil] at hmem
      simp at hmem
  · have hlen : 0 < ((missingIdxs w h gx gy (parseDispmanxLines env.probeLines) 0
        cfg.streams.length).map Cmd.terminate).length := by
      rw [List.length_map]
      exact List.length_pos.mpr hTnil
    have hexec : (repairStreams env envS cfg true).executed =
        (missingIdxs w h gx gy (parseDispmanxLines env.probeLines) 0
            cfg.streams.length).map Cmd.terminate
          ++ (startStreams envS cfg true).executed := by
      unfold repairStreams
      rw [hgrid]
      dsimp only
      rw [hgo]
      dsimp only
      rw [if_pos hlen]
      cases hse : (startStreams envS cfg true).err with
      | some e => rfl
      | none => rfl
    refine ⟨?_, ?_, fun _ => hexec⟩
    · intro i
      rw [hexec]
      constructor
      · intro hmem
        rcases List.mem_append.mp hmem with hmem | hmem
        · rw [List.mem_map] at hmem
          obtain ⟨j, hj, hjc⟩ := hmem
          have hji : j = i := by
            simpa [Cmd.terminate.injEq] using hjc
          subst hji
          have hj2 := mem_missingIdxs.mp hj
          exact ⟨by omega, hj2.2.2⟩
        · have := startStreams_executed_isCreate envS cfg true _ hmem
          simp [Cmd.isCreate] at this
      · rintro ⟨h1, h2⟩
        exact List.mem_append.mpr (Or.inl (List.mem_map.mpr
          ⟨i, mem_missingIdxs.mpr ⟨Nat.zero_le i, by omega, h2⟩, rfl⟩))
    · intro hall
      exfalso
      obtain ⟨j, hj⟩ := List.exists_mem_of_ne_nil _ hTnil
      have hj2 := mem_missingIdxs.mp hj
      exact hj2.2.2 (hall j (by omega))

/-- The environment of the 3-stream scenario of the spec: display
1920 x 1080, live layers observed at (0,0) and (960,0) only, no session
running, every command succeeding. -/
def envRepair : Env :=
  { sessionExists := fun _ => false, createExit := fun _ => 0, termExit := fun _ => 0,
    resolution := some (1920, 1080),
    probeLines := [ProbeLine.activeLayer 0 0, ProbeLine.activeLayer 960 0],
    grepAvailable := true }

/-- A three-stream configuration. -/
def cfgThree : Cfg :=
  { streams := [⟨"c0", "u0", none⟩, ⟨"c1", "u1", none⟩, ⟨"c2", "u2", none⟩] }

/-- Witness for C1: the spec scenario — 3 streams on 1920 x 1080 with
layers observed at (0,0) and (960,0), so only index 2 is missing. -/
theorem repair_terminates_exactly_missing_witness :
    (envRepair.resolution = some (1920, 1080) ∧ (0 : Nat) < 1920 ∧ (0 : Nat) < 1080
      ∧ calc_grid_dims cfgThree.streams.length = Except.ok (2, 2))
    ∧ ((∀ i, Cmd.terminate i ∈ (repairStreams envRepair envRepair cfgThree true).executed ↔
        (i < cfgThree.streams.length
          ∧ expectedAnchor 1920 1080 2 2 i ∉ parseDispmanxLines envRepair.probeLines))
      ∧ ((∀ i, i < cfgThree.streams.length →
          expectedAnchor 1920 1080 2 2 i ∈ parseDispmanxLines envRepair.probeLines) →
        (repairStreams envRepair envRepair cfgThree true).executed = []
          ∧ (repairStreams envRepair envRepair cfgThree true).printed = [])
      ∧ ((∃ i, i < cfgThree.streams.length
            ∧ expectedAnchor 1920 1080 2 2 i ∉ parseDispmanxLines envRepair.probeLines) →
        (repairStreams envRepair envRepair cfgThree true).executed =
          (missingIdxs 1920 1080 2 2 (parseDispmanxLines envRepair.probeLines) 0
              cfgThree.streams.length).map Cmd.terminate
            ++ (startStreams envRepair cfgThree true).executed)) :=
  ⟨⟨rfl, by decide, by decide, rfl⟩,
    repair_terminates_exactly_missing envRepair envRepair cfgThree 1920 1080 2 2 rfl
      (by decide) (by decide) rfl⟩

/-- When `grep` is present, the resolution query succeeds with a positive
resolution and every launch command exits 0, the start loop raises
nothing and the indices of its executed commands are exactly the in-range
indices with no session. -/
lemma startGo_success (env : Env) (gx gy w2 h2 : Nat) (hgrep : env.grepAvailable = true)
    (hres : env.resolution = some (w2, h2)) (hw2 : 0 < w2) (hh2 : 0 < h2)
    (hexit : ∀ j, env.createExit j = 0) (ss : List CamStream) :
    ∀ i0, (startGo env true gx gy i0 ss).err = none
      ∧ (startGo env true gx gy i0 ss).executed.map Cmd.idx =
          (List.range' i0 ss.length).filter (fun j => !(env.sessionExists j)) := by
  induction ss with
  | nil => intro i0; exact ⟨rfl, rfl⟩
  | cons s rest ih =>
    intro i0
    have hc : checkScreenSessionExists env i0 = Except.ok (env.sessionExists i0) := by
      simp [checkScreenSessionExists, hgrep]
    have hwp : win_pos env.resolution gx gy (i0 % gx) (i0 / gx) =
        Except.ok (winPosCore w2 h2 gx gy (i0 % gx) (i0 / gx)) := by
      rw [hres]
      exact winPos_pos w2 h2 gx gy (i0 % gx) (i0 / gx) hw2 hh2
    simp only [startGo, hc, hwp]
    cases hse : env.sessionExists i0 with
    | true =>
      constructor
      · simpa using (ih (i0 + 1)).1
      · simp only [List.length_cons, List.range'_succ, List.filter_cons, hse]
        simpa using (ih (i0 + 1)).2
    | false =>
      constructor
      · simpa [hexit i0] using (ih (i0 + 1)).1
      · simp only [List.length_cons, List.range'_succ, List.filter_cons, hse]
        simpa [hexit i0, Cmd.idx] using (ih (i0 + 1)).2

/-- Closed form of a live `repair` run that found at least one missing
stream: the terminates for the missing indices, followed by a re-run of
start; the repaired-count line is logged only when that re-run raised
nothing. -/
lemma repairStreams_eq_missing (env envS : Env) (cfg : Cfg) (w h gx gy : Nat)
    (hres : env.resolution = some (w, h)) (hw : 0 < w) (hh : 0 < h)
    (hgrid : calc_grid_dims cfg.streams.length = Except.ok (gx, gy))
    (hTne : missingIdxs w h gx gy (parseDispmanxLines env.probeLines) 0
      cfg.streams.length ≠ []) :
    repairStreams env envS cfg true =
      { printed := (missingIdxs w h gx gy (parseDispmanxLines env.probeLines) 0
            cfg.streams.length).map Cmd.terminate
          ++ (startStreams envS cfg true).printed,
        executed := (missingIdxs w h gx gy (parseDispmanxLines env.probeLines) 0
            cfg.streams.length).map Cmd.terminate
          ++ (startStreams envS cfg true).executed,
        log := (startStreams envS cfg true).log
          ++ (if (startStreams envS cfg true).err = none then
              [repairedMsg (missingIdxs w h gx gy (parseDispmanxLines env.probeLines) 0
                cfg.streams.length).length]
            else []),
        err := (startStreams envS cfg true).err } := by
  have hgo : repairGo env.resolution true (parseDispmanxLines env.probeLines) gx gy 0
      cfg.streams =
      { printed := (missingIdxs w h gx gy (parseDispmanxLines env.probeLines) 0
          cfg.streams.length).map Cmd.terminate,
        executed := (missingIdxs w h gx gy (parseDispmanxLines env.probeLines) 0
          cfg.streams.length).map Cmd.terminate,
        log := [], err := none } := by
    rw [hres]
    simpa using repairGo_eq w h hw hh true (parseDispmanxLines env.probeLines) gx gy
      cfg.streams 0
  have hlen : 0 < ((missingIdxs w h gx gy (parseDispmanxLines env.probeLines) 0
      cfg.streams.length).map Cmd.terminate).length := by
    rw [List.length_map]
    exact List.length_pos.mpr hTne
  unfold repairStreams
  rw [hgrid]
  dsimp only
  rw [hgo]
  dsimp only
  rw [if_pos hlen]
  cases hse : (startStreams envS cfg true).err with
  | some e => simp [hse]
  | none => simp [hse, List.length_map]

/-- C10 (implicit): during `repair`, the restart phase re-checks session
existence, so an index marked missing whose session still exists when
start runs (the terminate outcome having gone unchecked) gets its
terminate but no create — and `repair` still completes without error and
counts that stream in its repaired-count report. -/
theorem repair_tolerates_surviving_session (env envS : Env) (cfg : Cfg)
    (w h w2 h2 gx gy idx : Nat)
    (hres : env.resolution = some (w, h)) (hw : 0 < w) (hh : 0 < h)
    (hgrid : calc_grid_dims cfg.streams.length = Except.ok (gx, gy))
    (hidx : idx < cfg.streams.length)
    (hmiss : expectedAnchor w h gx gy idx ∉ parseDispmanxLines env.probeLines)
    (hS : envS.sessionExists idx = true)
    (hgrep : envS.grepAvailable = true)
    (hres2 : envS.resolution = some (w2, h2)) (hw2 : 0 < w2) (hh2 : 0 < h2)
    (hexit : ∀ j, envS.createExit j = 0) :
    Cmd.terminate idx ∈ (repairStreams env envS cfg true).executed
    ∧ (∀ b t u, Cmd.create idx b t u ∉ (repairStreams env envS cfg true).executed)
    ∧ (repairStreams env envS cfg true).err = none
    ∧ idx ∈ missingIdxs w h gx gy (parseDispmanxLines env.probeLines) 0 cfg.streams.length
    ∧ repairedMsg (missingIdxs w h gx gy (parseDispmanxLines env.probeLines) 0
        cfg.streams.length).length ∈ (repairStreams env envS cfg true).log := by
  have hTmem : idx ∈ missingIdxs w h gx gy (parseDispmanxLines env.probeLines) 0
      cfg.streams.length := mem_missingIdxs.mpr ⟨Nat.zero_le idx, by omega, hmiss⟩
  have hTne := List.ne_nil_of_mem hTmem
  have hrw := repairStreams_eq_missing env envS cfg w h gx gy hres hw hh hgrid hTne
  have hsg : startStreams envS cfg true = startGo envS true gx gy 0 cfg.streams := by
    unfold startStreams
    rw [hgrid]
  have hstart := startGo_success envS gx gy w2 h2 hgrep hres2 hw2 hh2 hexit cfg.streams 0
  have hserr : (startStreams envS cfg true).err = none := by rw [hsg]; exact hstart.1
  refine ⟨?_, ?_, ?_, hTmem, ?_⟩
  · rw [hrw]
    exact List.mem_append.mpr (Or.inl (List.mem_map.mpr ⟨idx, hTmem, rfl⟩))
  · intro b t u hmem
    rw [hrw] at hmem
    rcases List.mem_append.mp hmem with hmem | hmem
    · rw [List.mem_map] at hmem
      obtain ⟨j, _, hjc⟩ := hmem
      simp at hjc
    · have hidxmem : idx ∈ (startStreams envS cfg true).executed.map Cmd.idx := by
        exact List.mem_map.mpr ⟨Cmd.create idx b t u, hmem, rfl⟩
      rw [hsg, hstart.2] at hidxmem
      rw [List.mem_filter] at hidxmem
      rw [hS] at hidxmem
      simp at hidxmem
  · rw [hrw]
    exact hserr
  · rw [hrw]
    simp only [hserr, if_pos]
    exact List.mem_append.mpr (Or.inr (List.mem_singleton.mpr rfl))

/-- An environment in which every session still exists, every launch
succeeds, every terminate exits 1, and no compositor layer is
observed. -/
def envLayersGone : Env :=
  { sessionExists := fun _ => true, createExit := fun _ => 0, termExit := fun _ => 1,
    resolution := some (1920, 1080), probeLines := [], grepAvailable := true }

/-- Witness for C10: two streams with no observed layer and sessions that
survive their terminate; repair terminates both, creates nothing,
finishes cleanly and reports two repaired streams. -/
theorem repair_tolerates_surviving_session_witness :
    (envLayersGone.resolution = some (1920, 1080)
      ∧ calc_grid_dims cfgTwo.streams.length = Except.ok (2, 2)
      ∧ (0 : Nat) < cfgTwo.streams.length
      ∧ expectedAnchor 1920 1080 2 2 0 ∉ parseDispmanxLines envLayersGone.probeLines
      ∧ envLayersGone.sessionExists 0 = true)
    ∧ (Cmd.terminate 0 ∈ (repairStreams envLayersGone envLayersGone cfgTwo true).executed
      ∧ (∀ b t u,
        Cmd.create 0 b t u ∉ (repairStreams envLayersGone envLayersGone cfgTwo true).executed)
      ∧ (repairStreams envLayersGone envLayersGone cfgTwo true).err = none
      ∧ 0 ∈ missingIdxs 1920 1080 2 2 (parseDispmanxLines envLayersGone.probeLines) 0
          cfgTwo.streams.length
      ∧ repairedMsg (missingIdxs 1920 1080 2 2 (parseDispmanxLines envLayersGone.probeLines) 0
          cfgTwo.streams.length).length
        ∈ (repairStreams envLayersGone envLayersGone cfgTwo true).log) :=
  ⟨⟨rfl, rfl, by decide, by decide, rfl⟩,
    repair_tolerates_surviving_session envLayersGone envLayersGone cfgTwo 1920 1080 1920 1080
      2 2 0 rfl (by decide) (by decide) rfl (by decide) (by decide) rfl rfl rfl (by decide)
      (by decide) (fun _ => rfl)⟩

/-- If the first live terminate with a nonzero exit status is at index
`i`, the stop loop raises there, having executed exactly one terminate
per existing session up to and including `i`. -/
lemma stopGo_fatal (env : Env) (hgrep : env.grepAvailable = true) (ss : List CamStream) :
    ∀ i0 i, i0 ≤ i → i < i0 + ss.length →
      env.sessionExists i = true → env.termExit i ≠ 0 →
      (∀ j, i0 ≤ j → j < i → env.sessionExists j = true → env.termExit j = 0) →
      (stopGo env true i0 ss).err = some (termFailMsg i (env.termExit i))
      ∧ (stopGo env true i0 ss).executed.map Cmd.idx =
          (List.range' i0 (i + 1 - i0)).filter (fun j => env.sessionExists j) := by
  induction ss with
  | nil => intro i0 i h1 h2 _ _ _; simp only [List.length_nil] at h2; omega
  | cons s rest ih =>
    intro i0 i h1 h2 hst hte hprev
    have hc : checkScreenSessionExists env i0 = Except.ok (env.sessionExists i0) := by
      simp [checkScreenSessionExists, hgrep]
    simp only [stopGo, hc]
    rcases Nat.eq_or_lt_of_le h1 with heq | hlt
    · subst heq
      constructor
      · simp [hst, hte]
      · simp [hst, hte, Cmd.idx, Nat.add_sub_cancel_left, List.range'_one, List.filter_cons]
    · have harith : i + 1 - i0 = (i + 1 - (i0 + 1)) + 1 := by omega
      have hrec := ih (i0 + 1) i (by omega) (by simp only [List.length_cons] at h2; omega)
        hst hte (fun j a b cc => hprev j (by omega) b cc)
      cases hse : env.sessionExists i0 with
      | true =>
        have h0 : env.termExit i0 = 0 := hprev i0 (Nat.le_refl i0) hlt hse
        constructor
        · simpa [h0] using hrec.1
        · rw [harith, List.range'_succ]
          simp only [List.filter_cons, hse]
          simpa [h0, Cmd.idx] using hrec.2
      | false =>
        constructor
        · simpa using hrec.1
        · rw [harith, List.range'_succ]
          simp only [List.filter_cons, hse]
          simpa using hrec.2

/-- If the first live launch with a nonzero exit status is at index `i`,
the start loop raises there, having executed exactly one launch per
sessionless index up to and including `i`. -/
lemma startGo_fatal (env : Env) (gx gy w2 h2 : Nat) (hgrep : env.grepAvailable = true)
    (hres : env.resolution = some (w2, h2)) (hw2 : 0 < w2) (hh2 : 0 < h2)
    (ss : List CamStream) :
    ∀ i0 i, i0 ≤ i → i < i0 + ss.length →
      env.sessionExists i = false → env.createExit i ≠ 0 →
      (∀ j, i0 ≤ j → j < i → env.sessionExists j = false → env.createExit j = 0) →
      (startGo env true gx gy i0 ss).err = some (launchFailMsg i (env.createExit i))
      ∧ (startGo env true gx gy i0 ss).executed.map Cmd.idx =
          (List.range' i0 (i + 1 - i0)).filter (fun j => !(env.sessionExists j)) := by
  induction ss with
  | nil => intro i0 i hle hub _ _ _; simp only [List.length_nil] at hub; omega
  | cons s rest ih =>
    intro i0 i hle hub hsf hce hprev
    have hc : checkScreenSessionExists env i0 = Except.ok (env.sessionExists i0) := by
      simp [checkScreenSessionExists, hgrep]
    have hwp : win_pos env.resolution gx gy (i0 % gx) (i0 / gx) =
        Except.ok (winPosCore w2 h2 gx gy (i0 % gx) (i0 / gx)) := by
      rw [hres]
      exact winPos_pos w2 h2 gx gy (i0 % gx) (i0 / gx) hw2 hh2
    simp only [startGo, hc, hwp]
    rcases Nat.eq_or_lt_of_le hle with heq | hlt
    · subst heq
      constructor
      · simp [hsf, hce]
      · simp [hsf, hce, Cmd.idx, Nat.add_sub_cancel_left, List.range'_one, List.filter_cons]
    · have harith : i + 1 - i0 = (i + 1 - (i0 + 1)) + 1 := by omega
      have hrec := ih (i0 + 1) i (by omega) (by simp only [List.length_cons] at hub; omega)
        hsf hce (fun j a b cc => hprev j (by omega) b cc)
      cases hse : env.sessionExists i0 with
      | true =>
        constructor
        · simpa using hrec.1
        · rw [harith, List.range'_succ]
          simp only [List.filter_cons, hse]
          simpa using hrec.2
      | false =>
        have h0 : env.createExit i0 = 0 := hprev i0 (Nat.le_refl i0) hlt hse
        constructor
        · simpa [h0] using hrec.1
        · rw [harith, List.range'_succ]
          simp only [List.filter_cons, hse]
          simpa [h0, Cmd.idx] using hrec.2

/-- The start loop never reads the terminate exit statuses. -/
lemma startGo_termExit_inv (env : Env) (g : Nat → Nat) (live : Bool) (gx gy : Nat)
    (ss : List CamStream) :
    ∀ i0, startGo { env with termExit := g } live gx gy i0 ss =
      startGo env live gx gy i0 ss := by
  induction ss with
  | nil => intro i0; rfl
  | cons s rest ih =>
    intro i0
    simp only [startGo]
    rw [ih (i0 + 1),
      show checkScreenSessionExists { env with termExit := g } i0 =
        checkScreenSessionExists env i0 from rfl]

/-- `start_streams` never reads the terminate exit statuses. -/
lemma startStreams_termExit_inv (envS : Env) (g : Nat → Nat) (cfg : Cfg) (live : Bool) :
    startStreams { envS with termExit := g } cfg live = startStreams envS cfg live := by
  unfold startStreams
  cases hg : calc_grid_dims cfg.streams.length with
  | error e => rfl
  | ok d =>
    obtain ⟨gx, gy⟩ := d
    exact startGo_termExit_inv envS g live gx gy cfg.streams 0

/-- C6 amended: a nonzero exit status is fatal for `start` launches and
for `stop` terminates — the operation raises at the first failing index,
keeps the commands already executed (no rollback) and issues nothing
beyond it (no retry) — but NOT for the terminates issued during `repair`:
`repair` ignores terminate exit statuses entirely, and its behaviour is
unchanged under any reassignment of them. -/
theorem nonzero_exit_fatal_except_repair (env envS : Env) (cfg : Cfg) :
    (∀ w2 h2 gx gy i, env.grepAvailable = true → env.resolution = some (w2, h2) →
      0 < w2 → 0 < h2 → calc_grid_dims cfg.streams.length = Except.ok (gx, gy) →
      i < cfg.streams.length → env.sessionExists i = false → env.createExit i ≠ 0 →
      (∀ j, j < i → env.sessionExists j = false → env.createExit j = 0) →
      (startStreams env cfg true).err = some (launchFailMsg i (env.createExit i))
      ∧ (startStreams env cfg true).executed.map Cmd.idx =
          (List.range (i + 1)).filter (fun j => !(env.sessionExists j)))
    ∧ (∀ i, env.grepAvailable = true → i < cfg.streams.length →
      env.sessionExists i = true → env.termExit i ≠ 0 →
      (∀ j, j < i → env.sessionExists j = true → env.termExit j = 0) →
      (stopStreams env cfg true).err = some (termFailMsg i (env.termExit i))
      ∧ (stopStreams env cfg true).executed.map Cmd.idx =
          (List.range (i + 1)).filter (fun j => env.sessionExists j))
    ∧ (∀ f g live,
      repairStreams { env with termExit := f } { envS with termExit := g } cfg live =
        repairStreams env envS cfg live) := by
  refine ⟨?_, ?_, ?_⟩
  · intro w2 h2 gx gy i hgrep hres hw2 hh2 hgrid hi hsf hce hprev
    have h := startGo_fatal env gx gy w2 h2 hgrep hres hw2 hh2 cfg.streams 0 i
      (Nat.zero_le i) (by omega) hsf hce (fun j _ b cc => hprev j b cc)
    have hsg : startStreams env cfg true = startGo env true gx gy 0 cfg.streams := by
      unfold startStreams
      rw [hgrid]
    rw [hsg]
    refine ⟨h.1, ?_⟩
    rw [List.range_eq_range']
    simpa using h.2
  · intro i hgrep hi hst hte hprev
    have h := stopGo_fatal env hgrep cfg.streams 0 i (Nat.zero_le i) (by omega) hst hte
      (fun j _ b cc => hprev j b cc)
    refine ⟨h.1, ?_⟩
    rw [List.range_eq_range']
    simpa using h.2
  · intro f g live
    have hs := startStreams_termExit_inv envS g cfg live
    unfold repairStreams
    rw [hs]

/-- Counterexample for C6: in `envLayersGone` every terminate exits 1,
yet a live `repair` of two missing streams executes both terminates —
processing continues past the first nonzero exit — and completes with no
error. -/
theorem repair_nonzero_terminate_not_fatal :
    envLayersGone.termExit 0 ≠ 0
    ∧ (repairStreams envLayersGone envLayersGone cfgTwo true).executed =
        [Cmd.terminate 0, Cmd.terminate 1]
    ∧ (repairStreams envLayersGone envLayersGone cfgTwo true).err = none := by
  refine ⟨by decide, ?_, ?_⟩
  · decide
  · decide

/-- Witness for C6's amended theorem: a stop run whose first terminate
exits 1 raises immediately with exactly that terminate executed. -/
theorem nonzero_exit_fatal_except_repair_witness :
    (envLayersGone.grepAvailable = true ∧ (0 : Nat) < cfgTwo.streams.length
      ∧ envLayersGone.sessionExists 0 = true ∧ envLayersGone.termExit 0 ≠ 0)
    ∧ ((stopStreams envLayersGone cfgTwo true).err =
        some (termFailMsg 0 (envLayersGone.termExit 0))
      ∧ (stopStreams envLayersGone cfgTwo true).executed.map Cmd.idx =
          (List.range (0 + 1)).filter (fun j => envLayersGone.sessionExists j)) :=
  ⟨⟨rfl, by decide, rfl, by decide⟩,
    (nonzero_exit_fatal_except_repair envLayersGone envLayersGone cfgTwo).2.1 0 rfl (by decide)
      rfl (by decide) (fun j hj _ => absurd hj (Nat.not_lt_zero j))⟩

/-- Output in which every line fails to parse yields an empty corner
list. -/
lemma parse_all_noMatch : ∀ ls : List ProbeLine, (∀ l ∈ ls, l = ProbeLine.noMatch) →
    parseDispmanxLines ls = [] := by
  intro ls
  induction ls with
  | nil => intro _; rfl
  | cons a rest ih =>
    intro hall
    have ha := hall a (List.mem_cons_self a rest)
    rw [ha]
    exact ih (fun l hl => hall l (List.mem_cons_of_mem a hl))

/-- `repair_streams` depends on the probe output only through the parsed
corner list. -/
lemma repairStreams_probe_congr (env envS : Env) (cfg : Cfg) (live : Bool)
    (ls1 ls2 : List ProbeLine)
    (h : parseDispmanxLines ls1 = parseDispmanxLines ls2) :
    repairStreams { env with probeLines := ls1 } envS cfg live =
      repairStreams { env with probeLines := ls2 } envS cfg live := by
  unfold repairStreams
  rw [show parseDispmanxLines ({ env with probeLines := ls1 } : Env).probeLines =
    parseDispmanxLines ({ env with probeLines := ls2 } : Env).probeLines from h]

/-- An environment whose probe output is entirely unparsable. -/
def envUnparsable : Env :=
  { sessionExists := fun _ => true, createExit := fun _ => 0, termExit := fun _ => 0,
    resolution := some (1920, 1080), probeLines := [ProbeLine.noMatch, ProbeLine.noMatch],
    grepAvailable := true }

/-- Counterexample for C7: when the probe output is unparsable (every
line matches neither regex), `repair` does NOT fail — it gets an empty
anchor set, raises no error, and proceeds to treat streams as missing
(here terminating index 0). -/
theorem unparsable_probe_output_not_fatal :
    parseDispmanxLines envUnparsable.probeLines = []
    ∧ (repairStreams envUnparsable envUnparsable cfgTwo true).err = none
    ∧ Cmd.terminate 0 ∈ (repairStreams envUnparsable envUnparsable cfgTwo true).executed := by
  refine ⟨rfl, by decide, by decide⟩

/-- C7 amended: the probe loop silently skips every `format:UNKNOWN`
line, collects the anchor of every active known-format line, and silently
skips every line matching neither regex — wholly unparsable output
therefore behaves exactly like an empty anchor set (it is not an
error). -/
theorem probe_skips_unknown_collects_active (ls : List ProbeLine) (x y : Nat) :
    parseDispmanxLines (ProbeLine.unknownFormat :: ls) = parseDispmanxLines ls
    ∧ parseDispmanxLines (ProbeLine.activeLayer x y :: ls) = (x, y) :: parseDispmanxLines ls
    ∧ parseDispmanxLines (ProbeLine.noMatch :: ls) = parseDispmanxLines ls
    ∧ (∀ (env envS : Env) (cfg : Cfg) (live : Bool), (∀ l ∈ ls, l = ProbeLine.noMatch) →
      repairStreams { env with probeLines := ls } envS cfg live =
        repairStreams { env with probeLines := [] } envS cfg live) := by
  refine ⟨rfl, rfl, rfl, ?_⟩
  intro env envS cfg live hall
  exact repairStreams_probe_congr env envS cfg live ls [] (parse_all_noMatch ls hall)

/-- Witness for C7's amended theorem: one unparsable line behaves as an
empty probe result. -/
theorem probe_skips_unknown_collects_active_witness :
    (∀ l ∈ [ProbeLine.noMatch], l = ProbeLine.noMatch)
    ∧ repairStreams ({ envLayersGone with probeLines := [ProbeLine.noMatch] } : Env)
        envLayersGone cfgTwo true =
      repairStreams ({ envLayersGone with probeLines := [] } : Env) envLayersGone cfgTwo
        true :=
  ⟨by decide,
    (probe_skips_unknown_collects_active [ProbeLine.noMatch] 0 0).2.2.2 envLayersGone
      envLayersGone cfgTwo true (by decide)⟩

/-- On a dry run `restart_streams` executes no command. -/
lemma restartStreams_dry_executed (env envS : Env) (cfg : Cfg) :
    (restartStreams env envS cfg false).executed = [] := by
  have h1 := stopStreams_dry_executed env cfg
  have h2 := startStreams_dry_executed envS cfg
  simp only [restartStreams]
  cases he : (stopStreams env cfg false).err with
  | some e => exact h1
  | none => simp [h1, h2]

/-- On a dry run `repair_streams` executes no command. -/
lemma repairStreams_dry_executed (env envS : Env) (cfg : Cfg) :
    (repairStreams env envS cfg false).executed = [] := by
  have h2 := startStreams_dry_executed envS cfg
  simp only [repairStreams]
  cases hg : calc_grid_dims cfg.streams.length with
  | error e => rfl
  | ok d =>
    obtain ⟨gx, gy⟩ := d
    have hr := repairGo_dry_executed env.resolution (parseDispmanxLines env.probeLines)
      gx gy cfg.streams 0
    dsimp only
    cases he : (repairGo env.resolution false (parseDispmanxLines env.probeLines)
        gx gy 0 cfg.streams).err with
    | some e => exact hr
    | none =>
      by_cases hlen : 0 < (repairGo env.resolution false (parseDispmanxLines env.probeLines)
          gx gy 0 cfg.streams).printed.length
      · rw [if_pos hlen]
        cases hse : (startStreams envS cfg false).err with
        | some e2 => simp [hr, h2]
        | none => simp [hr, h2]
      · rw [if_neg hlen]
        exact hr

/-- Dry-run closed form of the start loop when `grep` is present and the
display query yields a positive resolution: it prints one fully
assembled launch command (bounding box, transport and URI included) for
exactly every sessionless index in order, executes nothing, logs one
skip line per existing session, and raises nothing. -/
lemma startGo_dry_eq (env : Env) (gx gy w h : Nat) (hgrep : env.grepAvailable = true)
    (hres : env.resolution = some (w, h)) (hw : 0 < w) (hh : 0 < h) (ss : List CamStream) :
    ∀ i0, startGo env false gx gy i0 ss =
      { printed := ((List.enumFrom i0 ss).filter (fun p => !(env.sessionExists p.1))).map
          (fun p => Cmd.create p.1 (winPosCore w h gx gy (p.1 % gx) (p.1 / gx))
            (transportOf p.2) p.2.uri),
        executed := [],
        log := ((List.range' i0 ss.length).filter (fun j => env.sessionExists j)).map skipMsg,
        err := none } := by
  induction ss with
  | nil => intro i0; rfl
  | cons s rest ih =>
    intro i0
    have hc : checkScreenSessionExists env i0 = Except.ok (env.sessionExists i0) := by
      simp [checkScreenSessionExists, hgrep]
    have hwp : win_pos env.resolution gx gy (i0 % gx) (i0 / gx) =
        Except.ok (winPosCore w h gx gy (i0 % gx) (i0 / gx)) := by
      rw [hres]
      exact winPos_pos w h gx gy (i0 % gx) (i0 / gx) hw hh
    simp only [startGo, hc, hwp]
    rw [ih (i0 + 1)]
    cases hse : env.sessionExists i0 with
    | true =>
      simp [List.enumFrom, List.filter_cons, hse, List.length_cons, List.range'_succ]
    | false =>
      simp [List.enumFrom, List.filter_cons, hse, List.length_cons, List.range'_succ]

/-- Dry-run closed form of the stop loop when `grep` is present: it
prints one terminate per existing session in order, executes nothing,
logs one already-stopped line per absent session, and raises nothing. -/
lemma stopGo_dry_eq (env : Env) (hgrep : env.grepAvailable = true) (ss : List CamStream) :
    ∀ i0, stopGo env false i0 ss =
      { printed := ((List.range' i0 ss.length).filter (fun j => env.sessionExists j)).map
          Cmd.terminate,
        executed := [],
        log := ((List.range' i0 ss.length).filter (fun j => !(env.sessionExists j))).map
          alreadyStoppedMsg,
        err := none } := by
  induction ss with
  | nil => intro i0; rfl
  | cons s rest ih =>
    intro i0
    have hc : checkScreenSessionExists env i0 = Except.ok (env.sessionExists i0) := by
      simp [checkScreenSessionExists, hgrep]
    simp only [stopGo, hc]
    rw [ih (i0 + 1)]
    cases hse : env.sessionExists i0 with
    | true => simp [List.filter_cons, hse, List.length_cons, List.range'_succ]
    | false => simp [List.filter_cons, hse, List.length_cons, List.range'_succ]

/-- C9: with the dry-run flag set, every operation still computes and
prints each command it would take but invokes no mutator.  The first
conjunct is unconditional: `start`, `stop`, `restart` and `repair`
execute zero create and zero terminate commands on a dry run, for every
environment and configuration.  The remaining conjuncts characterise the
dry-run report: `start` prints the fully assembled launch command for
exactly the sessionless indices and raises nothing; `stop` prints one
terminate per existing session and raises nothing; `restart` prints the
stop report followed by the start report; `repair` prints the terminates
of the missing indices followed by the start report when at least one
index is missing, and nothing when none is (read-only queries —
session-existence checks, the resolution query and the layer probe —
still occur and feed these reports). -/
theorem dry_run_prints_all_commands_executes_none (env envS : Env) (cfg : Cfg)
    (w h gx gy : Nat)
    (hgrep : env.grepAvailable = true)
    (hres : env.resolution = some (w, h)) (hw : 0 < w) (hh : 0 < h)
    (hgrid : calc_grid_dims cfg.streams.length = Except.ok (gx, gy)) :
    (∀ e eS : Env, (startStreams e cfg false).executed = []
      ∧ (stopStreams e cfg false).executed = []
      ∧ (restartStreams e eS cfg false).executed = []
      ∧ (repairStreams e eS cfg false).executed = [])
    ∧ (startStreams env cfg false).printed =
        ((List.enumFrom 0 cfg.streams).filter (fun p => !(env.sessionExists p.1))).map
          (fun p => Cmd.create p.1 (winPosCore w h gx gy (p.1 % gx) (p.1 / gx))
            (transportOf p.2) p.2.uri)
    ∧ (startStreams env cfg false).err = none
    ∧ (stopStreams env cfg false).printed =
        ((List.range cfg.streams.length).filter (fun j => env.sessionExists j)).map
          Cmd.terminate
    ∧ (stopStreams env cfg false).err = none
    ∧ (restartStreams env envS cfg false).printed =
        (stopStreams env cfg false).printed ++ (startStreams envS cfg false).printed
    ∧ ((∃ i, i < cfg.streams.length
          ∧ expectedAnchor w h gx gy i ∉ parseDispmanxLines env.probeLines) →
        (repairStreams env envS cfg false).printed =
          (missingIdxs w h gx gy (parseDispmanxLines env.probeLines) 0
              cfg.streams.length).map Cmd.terminate
            ++ (startStreams envS cfg false).printed)
    ∧ ((∀ i, i < cfg.streams.length →
          expectedAnchor w h gx gy i ∈ parseDispmanxLines env.probeLines) →
        (repairStreams env envS cfg false).printed = []) := by
  have hsg : startStreams env cfg false = startGo env false gx gy 0 cfg.streams := by
    unfold startStreams
    rw [hgrid]
  have hstart := startGo_dry_eq env gx gy w h hgrep hres hw hh cfg.streams 0
  have hstop := stopGo_dry_eq env hgrep cfg.streams 0
  have hgo : repairGo env.resolution false (parseDispmanxLines env.probeLines) gx gy 0
      cfg.streams =
      { printed := (missingIdxs w h gx gy (parseDispmanxLines env.probeLines) 0
          cfg.streams.length).map Cmd.terminate,
        executed := [], log := [], err := none } := by
    rw [hres]
    simpa using repairGo_eq w h hw hh false (parseDispmanxLines env.probeLines) gx gy
      cfg.streams 0
  refine ⟨?_, ?_, ?_, ?_, ?_, ?_, ?_, ?_⟩
  · intro e eS
    exact ⟨startStreams_dry_executed e cfg, stopStreams_dry_executed e cfg,
      restartStreams_dry_executed e eS cfg, repairStreams_dry_executed e eS cfg⟩
  · rw [hsg, hstart]
  · rw [hsg, hstart]
  · show (stopGo env false 0 cfg.streams).printed = _
    rw [hstop, List.range_eq_range']
  · show (stopGo env false 0 cfg.streams).err = none
    rw [hstop]
  · have he : (stopStreams env cfg false).err = none := by
      show (stopGo env false 0 cfg.streams).err = none
      rw [hstop]
    simp only [restartStreams]
    rw [he]
  · rintro ⟨i, hi, hmiss⟩
    have hTmem : i ∈ missingIdxs w h gx gy (parseDispmanxLines env.probeLines) 0
        cfg.streams.length := mem_missingIdxs.mpr ⟨Nat.zero_le i, by omega, hmiss⟩
    have hlen : 0 < ((missingIdxs w h gx gy (parseDispmanxLines env.probeLines) 0
        cfg.streams.length).map Cmd.terminate).length := by
      rw [List.length_map]
      exact List.length_pos.mpr (List.ne_nil_of_mem hTmem)
    unfold repairStreams
    rw [hgrid]
    dsimp only
    rw [hgo]
    dsimp only
    rw [if_pos hlen]
    cases hse : (startStreams envS cfg false).err with
    | some e => rfl
    | none => rfl
  · intro hall
    have hTnil : missingIdxs w h gx gy (parseDispmanxLines env.probeLines) 0
        cfg.streams.length = [] := by
      by_contra hne
      obtain ⟨j, hj⟩ := List.exists_mem_of_ne_nil _ hne
      have hj2 := mem_missingIdxs.mp hj
      exact hj2.2.2 (hall j (by omega))
    unfold repairStreams
    rw [hgrid]
    dsimp only
    rw [hgo, hTnil]
    simp

/-- Witness for C9: the 3-stream 1920 x 1080 scenario with no session
running and layers observed at (0,0) and (960,0): the dry run prints all
three launch commands for `start`, and for `repair` prints the terminate
of missing index 2 followed by the start report. -/
theorem dry_run_prints_all_commands_executes_none_witness :
    (envRepair.grepAvailable = true ∧ envRepair.resolution = some (1920, 1080)
      ∧ (0 : Nat) < 1920 ∧ (0 : Nat) < 1080
      ∧ calc_grid_dims cfgThree.streams.length = Except.ok (2, 2))
    ∧ (startStreams envRepair cfgThree false).printed =
        ((List.enumFrom 0 cfgThree.streams).filter
            (fun p => !(envRepair.sessionExists p.1))).map
          (fun p => Cmd.create p.1 (winPosCore 1920 1080 2 2 (p.1 % 2) (p.1 / 2))
            (transportOf p.2) p.2.uri)
    ∧ (repairStreams envRepair envRepair cfgThree false).printed =
        (missingIdxs 1920 1080 2 2 (parseDispmanxLines envRepair.probeLines) 0
            cfgThree.streams.length).map Cmd.terminate
          ++ (startStreams envRepair cfgThree false).printed :=
  ⟨⟨rfl, rfl, by decide, by decide, rfl⟩,
    (dry_run_prints_all_commands_executes_none envRepair envRepair cfgThree 1920 1080 2 2
      rfl rfl (by decide) (by decide) rfl).2.1,
    (dry_run_prints_all_commands_executes_none envRepair envRepair cfgThree 1920 1080 2 2
      rfl rfl (by decide) (by decide) rfl).2.2.2.2.2.2.1 ⟨2, by decide, by decide⟩⟩

end IpCamViewer
